import Mathlib

/-!
Shallow embedding of `src/Server.py`, a minimal single-connection HTTP/1.1
static file server, together with proofs checking the natural-language
claims of the specification against it.

Bytes are modelled as `Nat` (values 0..255), byte strings as `List Nat`,
Python `str` values as Lean `String`.  The filesystem (an external
collaborator, reached through `os.path.isfile` and `open`) is modelled as a
finite map from OS-normalized paths to file contents, where a stored `none`
content means the file exists but reading it raises an I/O error.
-/

/-- The bytes of an ASCII string (`str.encode()` for header text, which is
all ASCII in this program). -/
def sBytes (s : String) : List Nat := s.data.map Char.toNat

/-- Python `str.split(sep)` for a one-character separator `sep`: keeps empty
fields, `''.split(sep) == ['']`. -/
def pySplitChar (sep : Char) : List Char → List (List Char)
  | [] => [[]]
  | c :: rest =>
    let r := pySplitChar sep rest
    if c == sep then [] :: r
    else (c :: r.headD []) :: r.tail

/-- Python f-string rendering of an `Optional[str]` value: `None` renders as
the four-character string "None". -/
def pyStr : Option String → String
  | none => "None"
  | some s => s

/- Server configuration constants (src/Server.py lines 15-46). -/

def HTTP_200 : String := "HTTP/1.1 200 OK\r\n"

def HTTP_400 : String := "HTTP/1.1 400 BAD REQUEST\r\n"

def HTTP_403 : String := "HTTP/1.1 403 FORBIDDEN\r\n\r\n"

def HTTP_404 : String := "HTTP/1.1 404 NOT FOUND\r\n\r\n"

def HTTP_500 : String := "HTTP/1.1 500 INTERNAL SERVER ERROR\r\n\r\n"

def WEBROOT : String := "web_root"

def DEFAULT_URL : String := "index.html"

def REDIRECTION_DICTIONARY : List (String × String) := [("/moved", "/")]

def CONTENT_TYPES : List (String × String) :=
  [("html", "text/html;charset=utf-8"),
   ("jpg", "image/jpeg"),
   ("css", "text/css"),
   ("js", "text/javascript; charset=UTF-8"),
   ("txt", "text/plain"),
   ("ico", "image/x-icon"),
   ("gif", "image/jpeg"),
   ("png", "image/png")]

/-- POSIX path normalization on components, as the operating system resolves
a path before looking it up: empty and "." components vanish, ".." pops the
previous component (and is kept when there is nothing to pop). -/
def normalizeSegs : List String → List String → List String
  | stack, [] => stack.reverse
  | stack, s :: rest =>
    if s = "" ∨ s = "." then normalizeSegs stack rest
    else if s = ".." then
      match stack with
      | [] => normalizeSegs [s] rest
      | t :: stack2 =>
        if t = ".." then normalizeSegs (s :: t :: stack2) rest
        else normalizeSegs stack2 rest
    else normalizeSegs (s :: stack) rest

/-- The components of the OS-resolved form of a relative path. -/
def normalizePath (p : String) : List String :=
  normalizeSegs [] ((pySplitChar '/' p.data).map String.mk)

/-- The OS-resolved form of a relative path, as a single string. -/
def normString (p : String) : String := String.intercalate "/" (normalizePath p)

/-- Modelled from the spec: "A `ServeFile` outcome is only produced when the
resolved path exists and lies within the configured document root."  A path
lies within the document root when its OS-resolved form has the `WEBROOT`
component strictly above at least one further component. -/
def underWebroot (p : String) : Bool :=
  match normalizePath p with
  | w :: _ :: _ => w == WEBROOT
  | _ => false

/-- The filesystem collaborator: regular files keyed by OS-normalized path.
A `some none` entry is a file that exists (`os.path.isfile` is true) whose
read raises an I/O error. -/
structure FileSystem where
  entries : List (String × Option (List Nat))

/-- Python os.path.isfile applied to `p`: the OS resolves the path and
checks for a regular file. -/
def FileSystem.isfile (fs : FileSystem) (p : String) : Bool :=
  (List.lookup (normString p) fs.entries).isSome

/-- Reading the whole file at `p` in binary mode: `some` data on success,
`none` when any I/O error is raised (missing file, permissions, fault). -/
def FileSystem.read (fs : FileSystem) (p : String) : Option (List Nat) :=
  match List.lookup (normString p) fs.entries with
  | some (some d) => some d
  | _ => none

/-- Python os.path.join with POSIX separators (src/Server.py lines 57 and
103): `b` replaces everything when absolute; otherwise a separator is
inserted unless `a` is empty or already ends with one. -/
def osPathJoin (a b : String) : String :=
  if b.data.head? = some '/' then b
  else if a = "" ∨ a.data.getLastD ' ' = '/' then a ++ b
  else a ++ "/" ++ b

/-- The candidate file name formed from the request target
(src/Server.py lines 71-78): the root target becomes `DEFAULT_URL`; any
other target has its leading separators removed by Python lstrip, which
strips every leading separator character. -/
def candidateName (resource : String) : String :=
  if resource = "/" then DEFAULT_URL
  else String.mk (resource.data.dropWhile (fun c => c == '/'))

/-- The classified result of resolving a request target (the
`ResolutionOutcome` of the spec). -/
inductive ResolutionOutcome where
  | forcedStatus (header : String)
  | redirect (location : String)
  | notFound
  | serverError
  | serveFile (path : String) (contentType : String) (data : List Nat)
  deriving DecidableEq

/-- The decision structure of `handle_client_request`
(src/Server.py lines 63-128), with the outcome of each branch made explicit. -/
def resolve (fs : FileSystem) (resource : String) : ResolutionOutcome :=
  let uri := candidateName resource
  if resource = "/forbidden" then .forcedStatus HTTP_403
  else if resource = "/error" then .forcedStatus HTTP_500
  else match List.lookup resource REDIRECTION_DICTIONARY with
  | some new_location => .redirect new_location
  | none =>
    let file_path := osPathJoin WEBROOT uri
    if fs.isfile file_path = false then .notFound
    else
      let file_extension := String.mk ((pySplitChar '.' uri.data).getLastD [])
      let content_type := List.lookup file_extension CONTENT_TYPES
      match fs.read file_path with
      | none => .serverError
      | some data => .serveFile file_path (pyStr content_type) data

/-- The header block of a 200 response (src/Server.py lines 130-134). -/
def serve_header (ct : String) (n : Nat) : String :=
  HTTP_200 ++ "Content-Type: " ++ ct ++ "\r\n" ++
    "Content-Length: " ++ toString n ++ "\r\n" ++ "\r\n"

/-- The exact bytes `handle_client_request` sends for each outcome. -/
def serializeOutcome : ResolutionOutcome → List Nat
  | .forcedStatus header => sBytes header
  | .redirect new_location =>
    sBytes ("HTTP/1.1 302 MOVED TEMPORARILY\r\nLocation: " ++ new_location ++ "\r\n\r\n")
  | .notFound => sBytes HTTP_404
  | .serverError => sBytes HTTP_500
  | .serveFile _ ct data => sBytes (serve_header ct data.length) ++ data

/-- The function handle_client_request of src/Server.py (lines 63-138):
the bytes written to the socket for one resolved request target. -/
def handle_client_request (fs : FileSystem) (resource : String) : List Nat :=
  let uri := candidateName resource
  if resource = "/forbidden" then sBytes HTTP_403
  else if resource = "/error" then sBytes HTTP_500
  else match List.lookup resource REDIRECTION_DICTIONARY with
  | some new_location =>
    sBytes ("HTTP/1.1 302 MOVED TEMPORARILY\r\nLocation: " ++ new_location ++ "\r\n\r\n")
  | none =>
    let file_path := osPathJoin WEBROOT uri
    if fs.isfile file_path = false then sBytes HTTP_404
    else
      let file_extension := String.mk ((pySplitChar '.' uri.data).getLastD [])
      let content_type := List.lookup file_extension CONTENT_TYPES
      match fs.read file_path with
      | none => sBytes HTTP_500
      | some data => sBytes (serve_header (pyStr content_type) data.length) ++ data

/-- The function validate_http_request of src/Server.py (lines 141-171). -/
def validate_http_request (request : String) : Bool × String :=
  let parts := (pySplitChar ' ' request.data).map String.mk
  if parts.length < 3 then (false, "")
  else if parts.getD 0 "" ≠ "GET" then (false, "")
  else if List.isPrefixOf "HTTP/1.1".data (parts.getD 2 "").data = false then (false, "")
  else (true, parts.getD 1 "")

/-- Element 0 of the split of the framed request on CRLF
(src/Server.py line 196): the text before the first CRLF. -/
def firstLineChars : List Char → List Char
  | [] => []
  | '\r' :: '\n' :: _ => []
  | c :: rest => c :: firstLineChars rest

/-- The header-terminator characters. -/
def crlf2 : List Char := ['\r', '\n', '\r', '\n']

inductive FrameResult where
  | framed (request : String)
  | timeout
  | decodeError
  | outOfFuel
  deriving DecidableEq

/-- The framing loop of `handle_client` (src/Server.py lines 185-190),
stepped with explicit fuel.  The incoming stream is `data` (the bytes the
peer will send) plus `closed` (whether the peer closes afterwards; when it
does, `recv(1)` returns empty bytes forever, and when it does not, a further
`recv(1)` raises `socket.timeout`).  A single received byte at or above 0x80
makes `.decode()` raise, modelled as `decodeError`. -/
def frameLoop : Nat → List Char → List Nat → Bool → FrameResult
  | 0, _, _, _ => .outOfFuel
  | fuel + 1, acc, data, closed =>
    if crlf2.isSuffixOf acc then .framed (String.mk acc)
    else match data with
      | [] => if closed then frameLoop fuel acc [] closed else .timeout
      | b :: rest =>
        if 128 ≤ b then .decodeError
        else frameLoop fuel (acc ++ [Char.ofNat b]) rest closed

/-- The function handle_client of src/Server.py (lines 174-217): frames the
stream, validates the first line and responds.  The result is the list of
socket writes performed, or `none` when the loop never terminates (out of
fuel for every fuel).  The socket timeout and the decode error are both
caught (lines 211-215) and produce no write. -/
def handle_client (fuel : Nat) (fs : FileSystem) (data : List Nat) (closed : Bool) :
    Option (List (List Nat)) :=
  match frameLoop fuel [] data closed with
  | .framed client_request =>
    let first_line := String.mk (firstLineChars client_request.data)
    match validate_http_request first_line with
    | (true, resource) => some [handle_client_request fs resource]
    | (false, _) => some [sBytes HTTP_400]
  | .timeout => some []
  | .decodeError => some []
  | .outOfFuel => none

/- Concrete filesystem fixtures used by witnesses and counterexamples. -/

def fsEmpty : FileSystem := ⟨[]⟩

/-- A file `secret.txt` next to (not inside) the document root. -/
def fsTrav : FileSystem := ⟨[("secret.txt", some [115])]⟩

/-- A servable file whose extension has no entry in `CONTENT_TYPES`. -/
def fsXyz : FileSystem := ⟨[("web_root/data.xyz", some [104, 105])]⟩

/-- A document root holding an `index.html` with three bytes of content. -/
def fsIndex : FileSystem := ⟨[("web_root/index.html", some [60, 104, 62])]⟩

/-- A file that exists but whose read raises an I/O error. -/
def fsBroken : FileSystem := ⟨[("web_root/broken.txt", none)]⟩

/-- The byte stream of a well-formed GET request with one byte at or above
0x80 (value 200 at index 5) ahead of the header terminator. -/
def highByteStream : List Nat := sBytes "GET /" ++ [200] ++ sBytes " HTTP/1.1\r\n\r\n"

/-! ## Helper lemmas -/

theorem string_data_append (s t : String) : (s ++ t).data = s.data ++ t.data := rfl

theorem pySplitChar_no_sep (sep : Char) (l : List Char) (h : ∀ c ∈ l, c ≠ sep) :
    pySplitChar sep l = [l] := by
  induction l with
  | nil => rfl
  | cons c rest ih =>
    have hc : (c == sep) = false := by
      simp [h c (List.mem_cons_self c rest)]
    have hrest := ih (fun x hx => h x (List.mem_cons_of_mem c hx))
    simp only [pySplitChar]
    rw [hrest]
    simp [hc]

theorem pySplitChar_append_sep (sep : Char) (l1 l2 : List Char) (h : ∀ c ∈ l1, c ≠ sep) :
    pySplitChar sep (l1 ++ sep :: l2) = l1 :: pySplitChar sep l2 := by
  induction l1 with
  | nil => simp [pySplitChar]
  | cons c rest ih =>
    have hc : (c == sep) = false := by
      simp [h c (List.mem_cons_self c rest)]
    have hrest := ih (fun x hx => h x (List.mem_cons_of_mem c hx))
    simp only [List.cons_append, pySplitChar, List.append_eq]
    rw [hrest]
    simp [hc]

theorem dropWhile_head_not (p : Char → Bool) :
    ∀ (l : List Char) (c : Char), (l.dropWhile p).head? = some c → p c = false := by
  intro l
  induction l with
  | nil => intro c h; simp [List.dropWhile] at h
  | cons a rest ih =>
    intro c h
    by_cases ha : p a
    · exact ih c (by simpa [List.dropWhile, ha] using h)
    · have : c = a := by simpa [List.dropWhile, ha] using h.symm
      simp [this, ha]

theorem handle_client_request_eq (fs : FileSystem) (resource : String) :
    handle_client_request fs resource = serializeOutcome (resolve fs resource) := by
  unfold handle_client_request resolve
  dsimp only
  split
  · rfl
  · split
    · rfl
    · split
      · rfl
      · split
        · rfl
        · split <;> rfl

theorem frameLoop_succ (fuel : Nat) (acc : List Char) (data : List Nat) (closed : Bool) :
    frameLoop (fuel + 1) acc data closed =
      if crlf2.isSuffixOf acc then .framed (String.mk acc)
      else match data with
        | [] => if closed then frameLoop fuel acc [] closed else .timeout
        | b :: rest =>
          if 128 ≤ b then .decodeError
          else frameLoop fuel (acc ++ [Char.ofNat b]) rest closed := rfl

theorem frameLoop_closed_no_terminator :
    ∀ (fuel : Nat) (acc : List Char) (data : List Nat),
      (∀ b ∈ data, b < 128) →
      (∀ j, j ≤ data.length → crlf2.isSuffixOf (acc ++ (data.take j).map Char.ofNat) = false) →
      frameLoop fuel acc data true = FrameResult.outOfFuel := by
  intro fuel
  induction fuel with
  | zero => intro acc data _ _; rfl
  | succ n ih =>
    intro acc data hlow hterm
    have h0 : crlf2.isSuffixOf acc = false := by simpa using hterm 0 (Nat.zero_le _)
    rw [frameLoop_succ]
    rw [if_neg (by simp [h0])]
    cases data with
    | nil =>
      rw [if_pos rfl]
      exact ih acc [] (by simp) (by simpa using hterm)
    | cons b rest =>
      have hb : b < 128 := hlow b (List.mem_cons_self b rest)
      dsimp only
      rw [if_neg (by omega)]
      apply ih (acc ++ [Char.ofNat b]) rest
      · exact fun x hx => hlow x (List.mem_cons_of_mem b hx)
      · intro j hj
        have := hterm (j + 1) (Nat.succ_le_succ hj)
        simpa [List.take_succ_cons, List.append_assoc] using this

theorem frameLoop_decode_error :
    ∀ (k fuel : Nat) (acc : List Char) (data : List Nat) (closed : Bool),
      k < fuel → k < data.length →
      128 ≤ data.getD k 0 →
      (∀ j, j < k → data.getD j 0 < 128) →
      (∀ j, j ≤ k → crlf2.isSuffixOf (acc ++ (data.take j).map Char.ofNat) = false) →
      frameLoop fuel acc data closed = FrameResult.decodeError := by
  intro k
  induction k with
  | zero =>
    intro fuel acc data closed hfuel hk hhigh _ hterm
    obtain ⟨n, rfl⟩ : ∃ n, fuel = n + 1 := ⟨fuel - 1, by omega⟩
    cases data with
    | nil => simp at hk
    | cons b rest =>
      have h0 : crlf2.isSuffixOf acc = false := by simpa using hterm 0 (Nat.zero_le _)
      rw [frameLoop_succ, if_neg (by simp [h0])]
      have : (128 : Nat) ≤ b := by simpa using hhigh
      dsimp only
      rw [if_pos this]
  | succ k ih =>
    intro fuel acc data closed hfuel hk hhigh hlow hterm
    obtain ⟨n, rfl⟩ : ∃ n, fuel = n + 1 := ⟨fuel - 1, by omega⟩
    cases data with
    | nil => simp at hk
    | cons b rest =>
      have h0 : crlf2.isSuffixOf acc = false := by simpa using hterm 0 (Nat.zero_le _)
      rw [frameLoop_succ, if_neg (by simp [h0])]
      have hb : b < 128 := by simpa using hlow 0 (Nat.succ_pos k)
      dsimp only
      rw [if_neg (by omega)]
      apply ih n (acc ++ [Char.ofNat b]) rest closed (by omega) (by simpa using hk)
        (by simpa using hhigh)
      · intro j hj
        have := hlow (j + 1) (Nat.succ_lt_succ hj)
        simpa using this
      · intro j hj
        have := hterm (j + 1) (Nat.succ_le_succ hj)
        simpa [List.take_succ_cons, List.append_assoc] using this

/-! ## Claim theorems -/

/-- C1: the claim says an invalid request line makes the handler write
exactly the status line followed by a blank line terminating the header
block.  The code instead sends the constant HTTP_400, which carries a single
CRLF and never terminates the header block: evaluating the whole handler on
the stream of an invalid request shows the single-CRLF response, which
differs from the double-CRLF bytes the claim requires. -/
theorem bad_request_response_lacks_blank_line :
    handle_client 32 fsEmpty (sBytes "POST / HTTP/1.1\r\n\r\n") false =
      some [sBytes "HTTP/1.1 400 BAD REQUEST\r\n"] ∧
    sBytes "HTTP/1.1 400 BAD REQUEST\r\n" ≠
      sBytes ("HTTP/1.1 400 BAD REQUEST\r\n" ++ "\r\n") := by decide

/-- C2 (amended): a ServeFile outcome is produced only when the joined
candidate path names an existing regular file that reads successfully; no
containment check against the document root is performed. -/
theorem serve_requires_existing_file (fs : FileSystem) (r p ct : String) (d : List Nat)
    (h : resolve fs r = .serveFile p ct d) :
    fs.isfile p = true ∧ fs.read p = some d ∧ p = osPathJoin WEBROOT (candidateName r) := by
  unfold resolve at h
  dsimp only at h
  split at h
  · simp at h
  · split at h
    · simp at h
    · split at h
      · simp at h
      · split at h
        · simp at h
        · split at h
          · simp at h
          · rename_i hnotfile x d2 hread
            obtain ⟨hp, hct, hd⟩ := ResolutionOutcome.serveFile.inj h
            subst hp hd
            refine ⟨by simpa using hnotfile, ?_, rfl⟩
            simpa using hread

theorem serve_requires_existing_file_witness :
    fsTrav.isfile "web_root/../secret.txt" = true ∧
    fsTrav.read "web_root/../secret.txt" = some [115] ∧
    "web_root/../secret.txt" = osPathJoin WEBROOT (candidateName "/../secret.txt") :=
  serve_requires_existing_file fsTrav "/../secret.txt" "web_root/../secret.txt"
    "text/plain" [115] (by decide)

/-- C2 counterexample: the target with a dot-dot segment resolves to a
ServeFile outcome whose path escapes the document root, so a ServeFile
outcome is not restricted to paths inside the document root. -/
theorem cex_path_traversal_serve :
    resolve fsTrav "/../secret.txt" = .serveFile "web_root/../secret.txt" "text/plain" [115] ∧
    underWebroot "web_root/../secret.txt" = false := by decide

/-- C3 (amended): the root target is substituted by the default document
name; every other target has all of its leading separator characters
stripped, so the candidate never begins with a separator and the original
target is some run of separators followed by the candidate. -/
theorem candidate_name_spec :
    candidateName "/" = DEFAULT_URL ∧
    ∀ r : String, r ≠ "/" →
      (candidateName r).data.head? ≠ some '/' ∧
      ∃ k, r.data = List.replicate k '/' ++ (candidateName r).data := by
  constructor
  · rfl
  · intro r hr
    have hc : candidateName r = String.mk (r.data.dropWhile (fun c => c == '/')) := by
      simp [candidateName, hr]
    constructor
    · rw [hc]
      intro h
      have := dropWhile_head_not (fun c => c == '/') r.data '/' h
      simp at this
    · refine ⟨(r.data.takeWhile (fun c => c == '/')).length, ?_⟩
      rw [hc]
      have h1 : r.data.takeWhile (fun c => c == '/') =
          List.replicate (r.data.takeWhile (fun c => c == '/')).length '/' := by
        apply List.eq_replicate_of_mem
        intro b hb
        have := List.mem_takeWhile_imp hb
        simpa using this
      conv_lhs => rw [← List.takeWhile_append_dropWhile (fun c => c == '/') r.data]
      rw [← h1]

theorem candidate_name_spec_witness :
    (candidateName "//x").data.head? ≠ some '/' ∧
    ∃ k, ("//x" : String).data = List.replicate k '/' ++ (candidateName "//x").data :=
  candidate_name_spec.2 "//x" (by decide)

/-- C3 counterexample: the double-slash target yields candidate "x", not the
"/x" the claim (stripping exactly one separator) would give. -/
theorem cex_double_slash_candidate :
    candidateName "//x" = "x" ∧ candidateName "//x" ≠ "/x" := by decide

/-- C4 (amended): a servable file whose extension has no entry in the
content-type table is served with status 200, correct Content-Length and a
Content-Type value that is the literal string "None", the textual rendering
of the missing table lookup, not a fixed fallback MIME type. -/
theorem unknown_extension_content_type_none (fs : FileSystem) (r p ct : String) (d : List Nat)
    (h : resolve fs r = .serveFile p ct d)
    (hext : List.lookup (String.mk ((pySplitChar '.' (candidateName r).data).getLastD []))
      CONTENT_TYPES = none) :
    ct = "None" ∧
    handle_client_request fs r =
      sBytes (HTTP_200 ++ "Content-Type: " ++ "None" ++ "\r\n" ++
        "Content-Length: " ++ toString d.length ++ "\r\n" ++ "\r\n") ++ d := by
  have hct : ct = "None" := by
    unfold resolve at h
    dsimp only at h
    split at h
    · simp at h
    · split at h
      · simp at h
      · split at h
        · simp at h
        · split at h
          · simp at h
          · split at h
            · simp at h
            · obtain ⟨hp, hc, hd⟩ := ResolutionOutcome.serveFile.inj h
              rw [← hc, hext]
              rfl
  refine ⟨hct, ?_⟩
  rw [handle_client_request_eq, h, hct]
  rfl

theorem unknown_extension_content_type_none_witness :
    ("None" : String) = "None" ∧
    handle_client_request fsXyz "/data.xyz" =
      sBytes (HTTP_200 ++ "Content-Type: " ++ "None" ++ "\r\n" ++
        "Content-Length: " ++ toString (2 : Nat) ++ "\r\n" ++ "\r\n") ++ [104, 105] :=
  unknown_extension_content_type_none fsXyz "/data.xyz" "web_root/data.xyz" "None"
    [104, 105] (by decide) (by decide)

/-- C4 counterexample: for the unrecognized extension the table lookup is
empty and the served Content-Type value is the rendering "None" of that
empty lookup, which is not one of the configured MIME types. -/
theorem cex_content_type_is_null_rendering :
    resolve fsXyz "/data.xyz" = .serveFile "web_root/data.xyz" "None" [104, 105] ∧
    List.lookup "xyz" CONTENT_TYPES = none ∧
    pyStr (List.lookup "xyz" CONTENT_TYPES) = "None" ∧
    "None" ∉ CONTENT_TYPES.map Prod.snd := by decide

/-- C5: the claim says a peer close before the terminator makes framing fail
with a ConnectionClosed outcome.  In the code, a read from a closed stream
returns empty bytes, the loop appends nothing and retries, so for every fuel
bound the framing loop is still running: the handler never terminates and
never reaches any close-with-no-response outcome. -/
theorem framing_never_detects_peer_close :
    ∀ fuel : Nat,
      frameLoop fuel [] (sBytes "GET / HTTP/1.1\r\n") true = FrameResult.outOfFuel ∧
      handle_client fuel fsEmpty (sBytes "GET / HTTP/1.1\r\n") true = none := by
  intro fuel
  have h := frameLoop_closed_no_terminator fuel [] (sBytes "GET / HTTP/1.1\r\n")
    (by decide) (by decide)
  exact ⟨h, by simp [handle_client, h]⟩

/-- C6: for every well-formed request line built from the literal GET
method, a space-free target and the protocol token, the validator accepts
and returns the target exactly as received; whenever it rejects, it returns
the empty target. -/
theorem validator_returns_exact_target :
    (∀ target : String, (∀ c ∈ target.data, c ≠ ' ') →
      validate_http_request ("GET " ++ target ++ " HTTP/1.1") = (true, target)) ∧
    (∀ request : String, (validate_http_request request).1 = false →
      validate_http_request request = (false, "")) := by
  constructor
  · intro t ht
    have hdata : ("GET " ++ t ++ " HTTP/1.1").data =
        "GET".data ++ ' ' :: (t.data ++ ' ' :: "HTTP/1.1".data) := by
      simp only [string_data_append]
      rfl
    have hsplit : pySplitChar ' ' (("GET " ++ t ++ " HTTP/1.1").data) =
        ["GET".data, t.data, "HTTP/1.1".data] := by
      rw [hdata, pySplitChar_append_sep _ _ _ (by decide),
        pySplitChar_append_sep _ _ _ ht, pySplitChar_no_sep _ _ (by decide)]
    unfold validate_http_request
    rw [hsplit]
    simp
  · intro req h
    simp only [validate_http_request] at h ⊢
    split_ifs at h ⊢ <;> simp_all

theorem validator_returns_exact_target_witness :
    validate_http_request ("GET " ++ "/a%20b" ++ " HTTP/1.1") = (true, "/a%20b") :=
  validator_returns_exact_target.1 "/a%20b" (by decide)

/-- C7: a served file is sent as the exact template of status line,
Content-Type header, Content-Length header carrying the byte length of the
content, blank line, then the content bytes untransformed. -/
theorem serve_response_template (fs : FileSystem) (r p ct : String) (d : List Nat)
    (h : resolve fs r = .serveFile p ct d) :
    handle_client_request fs r =
      sBytes (HTTP_200 ++ "Content-Type: " ++ ct ++ "\r\n" ++
        "Content-Length: " ++ toString d.length ++ "\r\n" ++ "\r\n") ++ d := by
  rw [handle_client_request_eq, h]
  rfl

theorem serve_response_template_witness :
    handle_client_request fsIndex "/" =
      sBytes (HTTP_200 ++ "Content-Type: " ++ "text/html;charset=utf-8" ++ "\r\n" ++
        "Content-Length: " ++ toString (3 : Nat) ++ "\r\n" ++ "\r\n") ++ [60, 104, 62] :=
  serve_response_template fsIndex "/" "web_root/index.html" "text/html;charset=utf-8"
    [60, 104, 62] (by decide)

/-- C8: for every filesystem whatsoever, the forbidden route is answered
with exactly the 403 bytes and the error route with exactly the 500 bytes;
the result does not depend on the filesystem, so no lookup is involved. -/
theorem forced_routes_bypass_filesystem :
    ∀ fs : FileSystem,
      handle_client_request fs "/forbidden" = sBytes HTTP_403 ∧
      handle_client_request fs "/error" = sBytes HTTP_500 := by
  intro fs
  constructor <;> rfl

/-- C9: when the resolved candidate file exists but its read raises any I/O
error, the handler recovers and writes exactly the 500 response bytes. -/
theorem read_failure_yields_500 (fs : FileSystem) (r : String)
    (h1 : r ≠ "/forbidden") (h2 : r ≠ "/error")
    (h3 : List.lookup r REDIRECTION_DICTIONARY = none)
    (h4 : fs.isfile (osPathJoin WEBROOT (candidateName r)) = true)
    (h5 : fs.read (osPathJoin WEBROOT (candidateName r)) = none) :
    handle_client_request fs r = sBytes HTTP_500 := by
  rw [handle_client_request_eq]
  unfold resolve
  dsimp only
  rw [if_neg h1, if_neg h2, h3, h4, h5]
  rfl

theorem read_failure_yields_500_witness :
    handle_client_request fsBroken "/broken.txt" = sBytes HTTP_500 :=
  read_failure_yields_500 fsBroken "/broken.txt" (by decide) (by decide) (by decide)
    (by decide) (by decide)

/-- C10: any byte at or above 0x80 arriving ahead of the header terminator
makes the one-byte decode raise, so framing ends in the decode error and the
handler sends nothing, even when the stream holds a complete GET request. -/
theorem high_byte_aborts_connection (fs : FileSystem) (data : List Nat) (closed : Bool)
    (k fuel : Nat) (hfuel : k < fuel) (hk : k < data.length)
    (hhigh : 128 ≤ data.getD k 0)
    (hlow : ∀ j, j < k → data.getD j 0 < 128)
    (hterm : ∀ j, j ≤ k → crlf2.isSuffixOf ((data.take j).map Char.ofNat) = false) :
    frameLoop fuel [] data closed = FrameResult.decodeError ∧
    handle_client fuel fs data closed = some [] := by
  have h := frameLoop_decode_error k fuel [] data closed hfuel hk hhigh hlow
    (by simpa using hterm)
  exact ⟨h, by simp [handle_client, h]⟩

theorem high_byte_aborts_connection_witness :
    frameLoop 32 [] highByteStream false = FrameResult.decodeError ∧
    handle_client 32 fsEmpty highByteStream false = some [] :=
  high_byte_aborts_connection fsEmpty highByteStream false 5 32 (by decide) (by decide)
    (by decide) (by decide) (by decide)
